import Mathlib

/-!
Verification of the tau-builder firmware image tool.

The development shallowly embeds the byte-level core of the repository:
the ELF loadable-segment extractor `elf_to_raw` and the composite-image
builder `compose_tau_image` from `src/common.rs`, and the SPL header
builder `calc_spl_header`, the device provisioning `format`, the
incremental `update` and the top-level error reporting of `main` from
`src/main.rs`.  Byte buffers are `List Nat` (each element a byte value),
machine integers are `Nat` with explicit `% 2 ^ w` where the source
truncates, and fallible operations return `Except`.
-/

namespace TauBuilder

/-- Byte lookup in a buffer; out-of-range reads give 0 (used only where the
    source guarantees the index is in bounds, or where 0-defaulting is
    harmless on both sides of an equation). -/
def byteAt (l : List Nat) (i : Nat) : Nat := l.getD i 0

/-- Overwrite of the slice `image[off .. off + bytes.length]` with `bytes`:
    the embedding of Rust's `copy_from_slice` into a subslice.  It is the
    true in-place semantics when `off + bytes.length ≤ image.length`, which
    every call site in the source checks (or guarantees) first. -/
def writeRange (image : List Nat) (off : Nat) (bytes : List Nat) : List Nat :=
  image.take off ++ bytes ++ image.drop (off + bytes.length)

/-- The error enumeration `ElfError` of src/common.rs.  The `io::Error` and
    `object::read::Error` payloads of the first two constructors are not
    needed by any claim and are omitted. -/
inductive ElfError where
  | Read
  | ElfParse
  | ElfSegment
  | ElfOutputTooSmall
deriving DecidableEq, Repr

/-- A loadable segment as `elf_to_raw` (src/common.rs) sees it after parsing:
    `vaddr` is `seg.address()` (ELF `p_vaddr`), `data` is the file-backed
    byte slice `seg.data()` (so `data.length` is `p_filesz`), and `memsz` is
    `seg.size()` (ELF `p_memsz`). -/
structure Segment where
  vaddr : Nat
  data : List Nat
  memsz : Nat
deriving DecidableEq, Repr

/-- The first loop of `elf_to_raw`: segments with `seg.size() == 0` are
    skipped (`continue`), the rest are pushed onto `loads` in order. -/
def selectedSegs (segs : List Segment) : List Segment :=
  segs.filter (fun s => s.memsz != 0)

/-- `u64::MAX`, the initial value of `min_addr` in `elf_to_raw`. -/
def u64Max : Nat := 2 ^ 64 - 1

/-- `min_addr` as computed by the first loop of `elf_to_raw`:
    `cmp::min` folded over the selected segments starting from `u64::MAX`. -/
def minAddr (segs : List Segment) : Nat :=
  (selectedSegs segs).foldl (fun m s => min m s.vaddr) u64Max

/-- `max_addr` as computed by the first loop of `elf_to_raw`:
    `cmp::max` of `vaddr.saturating_add(memsz)` folded from 0.  The source
    computes this value but never reads it afterwards. -/
def maxAddr (segs : List Segment) : Nat :=
  (selectedSegs segs).foldl (fun m s => max m (min (s.vaddr + s.memsz) u64Max)) 0

/-- The second loop of `elf_to_raw` (src/common.rs lines 85-99): for each
    selected segment, skip it when `filesz == 0`, otherwise bounds-check the
    destination range `off .. off + filesz` and copy exactly `filesz` bytes.
    The comparison `s.data.length < s.data.length` is the source's
    `bytes.len() < filesz as usize` check: `bytes` and `filesz` both come
    from the same `seg.data()` slice, so both sides coincide here. -/
def copyLoop (minA : Nat) : List Segment → List Nat → Except ElfError (List Nat)
  | [], image => .ok image
  | s :: rest, image =>
    if s.data.length = 0 then
      copyLoop minA rest image
    else
      let off := s.vaddr - minA
      let e := off + s.data.length
      if e > image.length ∨ s.data.length < s.data.length then
        .error .ElfSegment
      else if image.length < e then
        .error .ElfOutputTooSmall
      else
        copyLoop minA rest (writeRange image off s.data)

/-- Embedding of `elf_to_raw` (src/common.rs lines 63-102) after the
    `object::File::parse` step: the caller supplies the parsed segment list;
    parse failures (`ElfError::ElfParse`) happen before this point. -/
def elf_to_raw (segs : List Segment) (image : List Nat) : Except ElfError (List Nat) :=
  copyLoop (minAddr segs) (selectedSegs segs) image

/-- One bit-step of the reflected CRC-32 division: shift right, conditionally
    xoring in the reflected ISO-HDLC polynomial 0xEDB88320. -/
def crc32_round (c : Nat) : Nat :=
  if c % 2 = 1 then (c / 2) ^^^ 0xEDB88320 else c / 2

/-- Iterate `crc32_round` n times. -/
def crc32_rounds : Nat → Nat → Nat
  | 0, c => c
  | n + 1, c => crc32_rounds n (crc32_round c)

/-- Absorb one input byte into the running CRC state. -/
def crc32_update (c b : Nat) : Nat := crc32_rounds 8 (c ^^^ (b % 256))

/-- CRC-32/ISO-HDLC over a byte sequence (`crc::CRC_32_ISO_HDLC` used by
    `calc_spl_header` in src/main.rs): reflected polynomial 0xEDB88320,
    initial value 0xFFFFFFFF, final xor 0xFFFFFFFF. -/
def crc32 (data : List Nat) : Nat :=
  (data.foldl crc32_update 0xFFFFFFFF) ^^^ 0xFFFFFFFF

/-- Little-endian byte decomposition of a 32-bit word (`u32::to_le_bytes`). -/
def u32ToLeBytes (x : Nat) : List Nat :=
  [x % 256, x / 2 ^ 8 % 256, x / 2 ^ 16 % 256, x / 2 ^ 24 % 256]

/-- Little-endian decoding of the 4 bytes at `off` in a buffer, used to state
    what the header fields contain. -/
def readLe32 (l : List Nat) (off : Nat) : Nat :=
  byteAt l off + 2 ^ 8 * byteAt l (off + 1) +
    2 ^ 16 * byteAt l (off + 2) + 2 ^ 24 * byteAt l (off + 3)

/-- The `write_at` closure of `calc_spl_header`: store word `x` little-endian
    at word index `i` of the header. -/
def write_at (header : List Nat) (i x : Nat) : List Nat :=
  writeRange header (i * 4) (u32ToLeBytes x)

/-- Embedding of `calc_spl_header` (src/main.rs lines 86-109).  The payload
    is the `spl` byte sequence; the `anyhow` error is modelled by its message
    string.  `spl.len() as u32` is the truncation `% 2 ^ 32`. -/
def calc_spl_header (spl : List Nat) (backup_offset version : Option Nat) :
    Except String (List Nat) :=
  if spl.length > 180048 then
    .error "spl too big"
  else
    let checksum := crc32 spl
    let h0 := List.replicate 0x400 0
    let h1 := write_at h0 0x00 0x240
    let h2 := write_at h1 0x01 (backup_offset.getD 0x200000)
    let h3 := write_at h2 0xa1 (version.getD 0x01010101)
    let h4 := write_at h3 0xa2 (spl.length % 2 ^ 32)
    let h5 := write_at h4 0xa3 0x400
    .ok (write_at h5 0xa4 checksum)

/-- The `ComposeError` of src/common.rs: an `ElfError` annotated with the
    path of the artifact file being processed. -/
structure ComposeError where
  file : String
  err : ElfError
deriving DecidableEq, Repr

def loaderPath : String := "target/riscv64imac-unknown-none-elf/release/loader"

def supervisorPath : String := "target/riscv64imac-unknown-none-elf/release/supervisor"

def systemPath : String := "target/riscv64imac-unknown-none-elf/release/system"

def SUPERVISOR_OFFSET : Nat := 0x5000

def SYSTEM_OFFSET : Nat := 0x10000

def IMAGE_SIZE : Nat := 0x40000

/-- Embedding of `compose_tau_image` (src/common.rs lines 142-160).  File
    reading and ELF parsing are abstracted into the three `Except`-valued
    inputs (an `Except.error` is a read or parse failure for that artifact;
    for the system artifact a success is its raw byte content).  The in-place
    mutation of subslices of `image` becomes take/append/drop surgery on the
    buffer.  `io::copy` into `&mut image[SYSTEM_OFFSET..]` copies the system
    bytes verbatim when they fit and otherwise fails with an I/O error
    (`write_all` on a full `&mut [u8]` sink returns `WriteZero`), modelled by
    `ElfError.Read`. -/
def compose_tau_image (loader supervisor : Except ElfError (List Segment))
    (system : Except ElfError (List Nat)) : Except ComposeError (List Nat) :=
  let image := List.replicate IMAGE_SIZE 0
  match loader with
  | .error e => .error ⟨loaderPath, e⟩
  | .ok lsegs =>
    match elf_to_raw lsegs (image.take SUPERVISOR_OFFSET) with
    | .error e => .error ⟨loaderPath, e⟩
    | .ok lout =>
      let image1 := lout ++ image.drop SUPERVISOR_OFFSET
      match supervisor with
      | .error e => .error ⟨supervisorPath, e⟩
      | .ok ssegs =>
        match elf_to_raw ssegs ((image1.drop SUPERVISOR_OFFSET).take (SYSTEM_OFFSET - SUPERVISOR_OFFSET)) with
        | .error e => .error ⟨supervisorPath, e⟩
        | .ok sout =>
          let image2 := image1.take SUPERVISOR_OFFSET ++ sout ++ image1.drop SYSTEM_OFFSET
          match system with
          | .error e => .error ⟨systemPath, e⟩
          | .ok sys =>
            if sys.length > IMAGE_SIZE - SYSTEM_OFFSET then
              .error ⟨systemPath, .Read⟩
            else
              .ok (image2.take SYSTEM_OFFSET ++ sys ++ image2.drop (SYSTEM_OFFSET + sys.length))

/-- One operation against the target block device, as issued by the storage
    writer.  Modelled from the spec: the `gpt` crate's partition table
    machinery and the raw `std::fs::File` device handle are outside this
    repository, so the device interface is abstracted to the trace of
    operations `format`/`update` perform: partition creation (name, partition
    index, starting logical block, size in blocks, type GUID), the GPT table
    serialization, the protective MBR write, seeks, byte writes, and the
    final flush (`sync_all`). -/
inductive DevOp where
  | createGpt (logicalBlockSize : Nat)
  | addPartitionAt (name : String) (id : Nat) (startLba : Nat) (sizeLba : Nat) (typeGuid : String)
  | writeGpt
  | protectiveMbr (lbSize : Nat)
  | seek (pos : Nat)
  | write (bytes : List Nat)
  | syncAll
deriving DecidableEq, Repr

/-- Embedding of `format` (src/main.rs lines 163-207) as the trace of device
    operations it performs.  The `sudo` escalation and the two `fs::read`
    calls are abstracted: `spl` and `openSbi` are the bytes of
    `u-boot-spl.bin` and `fw_payload.bin`.  Any failing step makes the whole
    operation fail with no further device operations. -/
def format (spl openSbi : List Nat) : Except String (List DevOp) :=
  match calc_spl_header spl none none with
  | .error e => .error e
  | .ok header =>
    .ok [.createGpt 512,
         .addPartitionAt "starfive_visionfive_2_u-boot-spl" 1 4096 4096
           "2E54B353-1271-4842-806F-E436D6AF6985",
         .addPartitionAt "starfive_visionfive_2_u-boot" 2 8192 8192
           "5B193300-FC78-40CD-8002-E86C45580B47",
         .writeGpt,
         .protectiveMbr 0xFFFFFFFF,
         .seek 0x200000, .write header, .write spl,
         .seek 0x400000, .write openSbi,
         .syncAll]

/-- Embedding of `update` (src/main.rs lines 209-224) on a device whose byte
    content is `dev`: build the composite image and write it at absolute
    offset 0x200000 (seek + `write_all`), then `sync_all` (which does not
    change content).  The `sudo` escalation and the device open are
    abstracted; the device is assumed at least 0x240000 bytes long wherever
    a theorem needs the write to be in range. -/
def update (loader supervisor : Except ElfError (List Segment))
    (system : Except ElfError (List Nat)) (dev : List Nat) :
    Except ComposeError (List Nat) :=
  match compose_tau_image loader supervisor system with
  | .error e => .error e
  | .ok image => .ok (writeRange dev 0x200000 image)

/-- Embedding of the tail of `main` (src/main.rs lines 226-245): given the
    result of the selected operation (an error modelled by its rendered
    message), return the lines printed to stderr and the process exit code.
    `main` prints the error with `eprintln!` and then returns `()` normally,
    so the process exit code is 0 in both branches. -/
def mainRun (res : Except String Unit) : List String × Nat :=
  match res with
  | .error err => ([err], 0)
  | .ok () => ([], 0)

/-- Two segments have non-overlapping file-backed destination ranges
    `(vaddr − minA) .. (vaddr − minA + filesz)` (a range is trivially
    non-overlapping when its segment carries no file-backed bytes).  Loadable
    segments of a well-formed executable satisfy this pairwise. -/
def disjointRanges (minA : Nat) (a b : Segment) : Prop :=
  a.data.length = 0 ∨ b.data.length = 0 ∨
    a.vaddr - minA + a.data.length ≤ b.vaddr - minA ∨
    b.vaddr - minA + b.data.length ≤ a.vaddr - minA

instance (minA : Nat) (a b : Segment) : Decidable (disjointRanges minA a b) := by
  unfold disjointRanges
  infer_instance

set_option maxRecDepth 4000

lemma length_writeRange (image : List Nat) (off : Nat) (bytes : List Nat)
    (h : off + bytes.length ≤ image.length) :
    (writeRange image off bytes).length = image.length := by
  simp only [writeRange, List.length_append, List.length_take, List.length_drop]
  omega

lemma byteAt_writeRange_inside (image : List Nat) (off : Nat) (bytes : List Nat)
    (h : off + bytes.length ≤ image.length) (k : Nat) (hk : k < bytes.length) :
    byteAt (writeRange image off bytes) (off + k) = byteAt bytes k := by
  have hlen : (image.take off).length = off := by
    simp only [List.length_take]
    omega
  have hlen2 : (image.take off ++ bytes).length = off + bytes.length := by
    simp only [List.length_append, hlen]
  simp only [byteAt, writeRange, List.getD_eq_getElem?_getD]
  rw [List.getElem?_append_left (by omega), List.getElem?_append_right (by omega), hlen,
    Nat.add_sub_cancel_left]

lemma byteAt_writeRange_outside (image : List Nat) (off : Nat) (bytes : List Nat)
    (h : off + bytes.length ≤ image.length) (j : Nat)
    (hj : j < off ∨ off + bytes.length ≤ j) :
    byteAt (writeRange image off bytes) j = byteAt image j := by
  have hlen : (image.take off).length = off := by
    simp only [List.length_take]
    omega
  have hlen2 : (image.take off ++ bytes).length = off + bytes.length := by
    simp only [List.length_append, hlen]
  simp only [byteAt, writeRange, List.getD_eq_getElem?_getD]
  rcases hj with hj | hj
  · rw [List.getElem?_append_left (by omega), List.getElem?_append_left (by omega),
      List.getElem?_take_of_lt hj]
  · rw [List.getElem?_append_right (by omega : (image.take off ++ bytes).length ≤ j), hlen2,
      List.getElem?_drop]
    congr 2
    omega

lemma byteAt_replicate (n a j : Nat) :
    byteAt (List.replicate n a) j = if j < n then a else 0 := by
  simp only [byteAt, List.getD_eq_getElem?_getD, List.getElem?_replicate]
  split <;> rfl

lemma byteAt_append (a b : List Nat) (j : Nat) :
    byteAt (a ++ b) j = if j < a.length then byteAt a j else byteAt b (j - a.length) := by
  simp only [byteAt, List.getD_eq_getElem?_getD]
  split
  · rw [List.getElem?_append_left ‹_›]
  · rw [List.getElem?_append_right (by omega)]

lemma take_writeRange (image : List Nat) (off : Nat) (bytes : List Nat)
    (h : off ≤ image.length) :
    (writeRange image off bytes).take off = image.take off := by
  unfold writeRange
  rw [List.append_assoc]
  exact List.take_left' (by simp only [List.length_take]; omega)

lemma drop_writeRange (image : List Nat) (off : Nat) (bytes : List Nat)
    (h : off ≤ image.length) :
    (writeRange image off bytes).drop (off + bytes.length) = image.drop (off + bytes.length) := by
  unfold writeRange
  exact List.drop_left' (by simp only [List.length_append, List.length_take]; omega)

lemma extract_writeRange (image : List Nat) (off : Nat) (bytes : List Nat)
    (h : off ≤ image.length) :
    ((writeRange image off bytes).drop off).take bytes.length = bytes := by
  unfold writeRange
  rw [List.append_assoc, List.drop_left' (by simp only [List.length_take]; omega),
    List.take_left' rfl]

lemma writeRange_idem (image : List Nat) (off : Nat) (bytes : List Nat)
    (h : off + bytes.length ≤ image.length) :
    writeRange (writeRange image off bytes) off bytes = writeRange image off bytes := by
  conv_lhs => rw [writeRange]
  rw [take_writeRange image off bytes (by omega), drop_writeRange image off bytes (by omega)]
  rfl

lemma foldl_min_le_init (l : List Segment) (init : Nat) :
    l.foldl (fun m s => min m s.vaddr) init ≤ init := by
  induction l generalizing init with
  | nil => simp
  | cons a t ih => exact le_trans (ih (min init a.vaddr)) (min_le_left _ _)

lemma foldl_min_le_mem (l : List Segment) : ∀ (init : Nat) (s : Segment), s ∈ l →
    l.foldl (fun m s => min m s.vaddr) init ≤ s.vaddr := by
  induction l with
  | nil => intro _ _ hs; cases hs
  | cons a t ih =>
    intro init s hs
    simp only [List.foldl_cons]
    rcases List.mem_cons.mp hs with h | h
    · subst h
      exact le_trans (foldl_min_le_init t (min init s.vaddr)) (min_le_right _ _)
    · exact ih (min init a.vaddr) s h

lemma foldl_min_mem_or_init (l : List Segment) : ∀ (init : Nat),
    l.foldl (fun m s => min m s.vaddr) init = init ∨
      ∃ s ∈ l, l.foldl (fun m s => min m s.vaddr) init = s.vaddr := by
  induction l with
  | nil => intro _; exact Or.inl rfl
  | cons a t ih =>
    intro init
    simp only [List.foldl_cons]
    rcases ih (min init a.vaddr) with h | ⟨s, hs, h⟩
    · rcases le_total init a.vaddr with hle | hle
      · exact Or.inl (h.trans (min_eq_left hle))
      · exact Or.inr ⟨a, List.mem_cons_self a t, h.trans (min_eq_right hle)⟩
    · exact Or.inr ⟨s, List.mem_cons_of_mem a hs, h⟩

lemma minAddr_le_selected (segs : List Segment) (s : Segment) (hs : s ∈ selectedSegs segs) :
    minAddr segs ≤ s.vaddr :=
  foldl_min_le_mem (selectedSegs segs) u64Max s hs

lemma minAddr_is_min (segs : List Segment)
    (hv : ∀ s ∈ selectedSegs segs, s.vaddr < 2 ^ 64)
    (hne : selectedSegs segs ≠ []) :
    ∃ s ∈ selectedSegs segs, minAddr segs = s.vaddr := by
  rcases foldl_min_mem_or_init (selectedSegs segs) u64Max with h | h
  · obtain ⟨s0, hs0⟩ := List.exists_mem_of_ne_nil _ hne
    have h1 : minAddr segs ≤ s0.vaddr := minAddr_le_selected segs s0 hs0
    have h2 : s0.vaddr < 2 ^ 64 := hv s0 hs0
    refine ⟨s0, hs0, ?_⟩
    have hmin : minAddr segs = u64Max := h
    have hu : u64Max = 2 ^ 64 - 1 := rfl
    omega
  · exact h

/-- Sanity check of the CRC-32/ISO-HDLC model against the standard check
    value: the CRC of the ASCII bytes of "123456789" is 0xCBF43926. -/
lemma copyLoop_ok_length (minA : Nat) (loads : List Segment) :
    ∀ (image out : List Nat), copyLoop minA loads image = .ok out →
      out.length = image.length := by
  induction loads with
  | nil =>
    intro image out h
    simp only [copyLoop] at h
    cases h
    rfl
  | cons s rest ih =>
    intro image out h
    simp only [copyLoop] at h
    split at h
    · exact ih image out h
    · split at h
      · exact Except.noConfusion h
      · split at h
        · exact Except.noConfusion h
        · rename_i hlen hc1 hc2
          rw [ih _ _ h, length_writeRange _ _ _ (by omega)]

lemma copyLoop_ne_too_small (minA : Nat) (loads : List Segment) :
    ∀ (image : List Nat), copyLoop minA loads image ≠ .error .ElfOutputTooSmall := by
  induction loads with
  | nil =>
    intro image h
    exact Except.noConfusion h
  | cons s rest ih =>
    intro image h
    simp only [copyLoop] at h
    split at h
    · exact ih image h
    · split at h
      · rename_i hc1
        cases h
    -- the ElfError payloads differ, so `cases h` on the injected equality
      · split at h
        · rename_i hc1 hc2
          omega
        · exact ih _ h

lemma copyLoop_err_of_overflow (minA : Nat) (loads : List Segment) :
    ∀ (image : List Nat),
      (∃ s ∈ loads, s.data.length ≠ 0 ∧
        image.length < s.vaddr - minA + s.data.length) →
      copyLoop minA loads image = .error .ElfSegment := by
  induction loads with
  | nil =>
    intro image h
    obtain ⟨s, hs, _⟩ := h
    cases hs
  | cons s rest ih =>
    intro image ⟨t, ht, htlen, htbad⟩
    by_cases hlen : s.data.length = 0
    · have htr : t ∈ rest := by
        rcases List.mem_cons.mp ht with h | h
        · subst h; exact absurd hlen htlen
        · exact h
      simp only [copyLoop, if_pos hlen]
      exact ih image ⟨t, htr, htlen, htbad⟩
    · by_cases hbad : image.length < s.vaddr - minA + s.data.length
      · simp only [copyLoop, if_neg hlen]
        rw [if_pos (Or.inl (by omega))]
      · have htr : t ∈ rest := by
          rcases List.mem_cons.mp ht with h | h
          · subst h; exact absurd htbad hbad
          · exact h
        simp only [copyLoop, if_neg hlen]
        rw [if_neg (by omega : ¬(s.vaddr - minA + s.data.length > image.length ∨
            s.data.length < s.data.length)),
          if_neg (by omega : ¬(image.length < s.vaddr - minA + s.data.length))]
        exact ih _ ⟨t, htr, htlen, by
          rw [length_writeRange _ _ _ (by omega)]
          exact htbad⟩

lemma copyLoop_spec (minA : Nat) (loads : List Segment) :
    ∀ (image : List Nat),
      (∀ s ∈ loads, s.vaddr - minA + s.data.length ≤ image.length) →
      loads.Pairwise (disjointRanges minA) →
      ∃ out, copyLoop minA loads image = .ok out ∧ out.length = image.length ∧
        (∀ s ∈ loads, ∀ k, k < s.data.length →
          byteAt out (s.vaddr - minA + k) = byteAt s.data k) ∧
        (∀ j, (∀ s ∈ loads, ¬(s.vaddr - minA ≤ j ∧
            j < s.vaddr - minA + s.data.length)) →
          byteAt out j = byteAt image j) := by
  induction loads with
  | nil =>
    intro image _ _
    exact ⟨image, rfl, rfl, fun s hs => absurd hs (List.not_mem_nil s),
      fun j _ => rfl⟩
  | cons s rest ih =>
    intro image hfit hpw
    have hfit_s : s.vaddr - minA + s.data.length ≤ image.length :=
      hfit s (List.mem_cons_self s rest)
    obtain ⟨hhead, htail⟩ := List.pairwise_cons.mp hpw
    by_cases hlen : s.data.length = 0
    · obtain ⟨out, hok, hlenout, hcopy, huntouched⟩ :=
        ih image (fun t ht => hfit t (List.mem_cons_of_mem s ht)) htail
      refine ⟨out, ?_, hlenout, ?_, ?_⟩
      · simp only [copyLoop, if_pos hlen]
        exact hok
      · intro t ht k hk
        rcases List.mem_cons.mp ht with h | h
        · subst h; omega
        · exact hcopy t h k hk
      · intro j hj
        exact huntouched j (fun t ht => hj t (List.mem_cons_of_mem s ht))
    · have him2 : (writeRange image (s.vaddr - minA) s.data).length = image.length :=
        length_writeRange _ _ _ hfit_s
      obtain ⟨out, hok, hlenout, hcopy, huntouched⟩ :=
        ih (writeRange image (s.vaddr - minA) s.data)
          (fun t ht => by rw [him2]; exact hfit t (List.mem_cons_of_mem s ht)) htail
      refine ⟨out, ?_, by rw [hlenout, him2], ?_, ?_⟩
      · simp only [copyLoop, if_neg hlen]
        rw [if_neg (by omega : ¬(s.vaddr - minA + s.data.length > image.length ∨
            s.data.length < s.data.length)),
          if_neg (by omega : ¬(image.length < s.vaddr - minA + s.data.length))]
        exact hok
      · intro t ht k hk
        rcases List.mem_cons.mp ht with h | h
        · subst h
          have hnot : ∀ u ∈ rest, ¬(u.vaddr - minA ≤ t.vaddr - minA + k ∧
              t.vaddr - minA + k < u.vaddr - minA + u.data.length) := by
            intro u hu
            rcases hhead u hu with h0 | h0 | h0 | h0 <;> omega
          rw [huntouched _ hnot]
          exact byteAt_writeRange_inside image _ t.data hfit_s k hk
        · exact hcopy t h k hk
      · intro j hj
        rw [huntouched j (fun t ht => hj t (List.mem_cons_of_mem s ht))]
        have hjs := hj s (List.mem_cons_self s rest)
        exact byteAt_writeRange_outside image _ s.data hfit_s j (by omega)

lemma elf_to_raw_ok_length (segs : List Segment) (image out : List Nat)
    (h : elf_to_raw segs image = .ok out) : out.length = image.length :=
  copyLoop_ok_length (minAddr segs) (selectedSegs segs) image out h

lemma mem_selectedSegs (segs : List Segment) (s : Segment) :
    s ∈ selectedSegs segs ↔ s ∈ segs ∧ s.memsz ≠ 0 := by
  simp [selectedSegs, List.mem_filter]

lemma loader_subbuffer :
    (List.replicate 0x40000 (0 : Nat)).take 0x5000 = List.replicate 0x5000 0 := by
  rw [List.take_replicate]
  norm_num

lemma supervisor_subbuffer (lout : List Nat) (hl : lout.length = 0x5000) :
    ((lout ++ (List.replicate 0x40000 (0 : Nat)).drop 0x5000).drop 0x5000).take
      (0x10000 - 0x5000) = List.replicate 0xB000 0 := by
  rw [List.drop_left' hl, List.drop_replicate, List.take_replicate]
  norm_num

lemma image2_eq (lout sout : List Nat) (hl : lout.length = 0x5000) :
    (lout ++ (List.replicate 0x40000 (0 : Nat)).drop 0x5000).take 0x5000 ++ sout ++
      (lout ++ (List.replicate 0x40000 (0 : Nat)).drop 0x5000).drop 0x10000 =
      lout ++ sout ++ List.replicate 0x30000 0 := by
  rw [List.take_left' hl, List.drop_append_eq_append_drop,
    List.drop_eq_nil_of_le (by omega), List.drop_replicate, hl]
  norm_num

lemma final_take (lout sout : List Nat) (hl : lout.length = 0x5000)
    (hs : sout.length = 0xB000) :
    (lout ++ sout ++ List.replicate 0x30000 (0 : Nat)).take 0x10000 = lout ++ sout :=
  List.take_left' (by simp [hl, hs])

lemma final_drop (lout sout : List Nat) (hl : lout.length = 0x5000)
    (hs : sout.length = 0xB000) (n : Nat) :
    (lout ++ sout ++ List.replicate 0x30000 (0 : Nat)).drop (0x10000 + n) =
      List.replicate (0x30000 - n) 0 := by
  rw [List.drop_append_eq_append_drop,
    List.drop_eq_nil_of_le (by simp [hl, hs]), List.drop_replicate]
  simp [hl, hs]

lemma compose_loader_read_err (S : Except ElfError (List Segment))
    (Y : Except ElfError (List Nat)) (e : ElfError) :
    compose_tau_image (.error e) S Y = .error ⟨loaderPath, e⟩ := rfl

lemma compose_loader_elf_err (ls : List Segment) (S : Except ElfError (List Segment))
    (Y : Except ElfError (List Nat)) (e : ElfError)
    (h : elf_to_raw ls (List.replicate 0x5000 0) = .error e) :
    compose_tau_image (.ok ls) S Y = .error ⟨loaderPath, e⟩ := by
  simp only [compose_tau_image, SUPERVISOR_OFFSET, SYSTEM_OFFSET, IMAGE_SIZE,
    loader_subbuffer, h]

lemma compose_supervisor_read_err (ls : List Segment) (lout : List Nat)
    (Y : Except ElfError (List Nat)) (e : ElfError)
    (h : elf_to_raw ls (List.replicate 0x5000 0) = .ok lout) :
    compose_tau_image (.ok ls) (.error e) Y = .error ⟨supervisorPath, e⟩ := by
  simp only [compose_tau_image, SUPERVISOR_OFFSET, SYSTEM_OFFSET, IMAGE_SIZE,
    loader_subbuffer, h]

lemma compose_supervisor_elf_err (ls ss : List Segment) (lout : List Nat)
    (Y : Except ElfError (List Nat)) (e : ElfError)
    (h : elf_to_raw ls (List.replicate 0x5000 0) = .ok lout)
    (h2 : elf_to_raw ss (List.replicate 0xB000 0) = .error e) :
    compose_tau_image (.ok ls) (.ok ss) Y = .error ⟨supervisorPath, e⟩ := by
  have hl : lout.length = 0x5000 := by
    have h5 := elf_to_raw_ok_length ls _ lout h
    rwa [List.length_replicate] at h5
  simp only [compose_tau_image, SUPERVISOR_OFFSET, SYSTEM_OFFSET, IMAGE_SIZE,
    loader_subbuffer, h, supervisor_subbuffer lout hl, h2]

lemma compose_system_read_err (ls ss : List Segment) (lout sout : List Nat) (e : ElfError)
    (h : elf_to_raw ls (List.replicate 0x5000 0) = .ok lout)
    (h2 : elf_to_raw ss (List.replicate 0xB000 0) = .ok sout) :
    compose_tau_image (.ok ls) (.ok ss) (.error e) = .error ⟨systemPath, e⟩ := by
  have hl : lout.length = 0x5000 := by
    have h5 := elf_to_raw_ok_length ls _ lout h
    rwa [List.length_replicate] at h5
  simp only [compose_tau_image, SUPERVISOR_OFFSET, SYSTEM_OFFSET, IMAGE_SIZE,
    loader_subbuffer, h, supervisor_subbuffer lout hl, h2]

lemma compose_system_too_big (ls ss : List Segment) (lout sout : List Nat) (sys : List Nat)
    (h : elf_to_raw ls (List.replicate 0x5000 0) = .ok lout)
    (h2 : elf_to_raw ss (List.replicate 0xB000 0) = .ok sout)
    (hn : 0x30000 < sys.length) :
    compose_tau_image (.ok ls) (.ok ss) (.ok sys) = .error ⟨systemPath, .Read⟩ := by
  have hl : lout.length = 0x5000 := by
    have h5 := elf_to_raw_ok_length ls _ lout h
    rwa [List.length_replicate] at h5
  simp only [compose_tau_image, SUPERVISOR_OFFSET, SYSTEM_OFFSET, IMAGE_SIZE,
    loader_subbuffer, h, supervisor_subbuffer lout hl, h2]
  rw [if_pos (by omega)]

lemma compose_ok_eval (ls ss : List Segment) (sys lout sout : List Nat)
    (h : elf_to_raw ls (List.replicate 0x5000 0) = .ok lout)
    (h2 : elf_to_raw ss (List.replicate 0xB000 0) = .ok sout)
    (hn : sys.length ≤ 0x30000) :
    compose_tau_image (.ok ls) (.ok ss) (.ok sys) =
      .ok (lout ++ sout ++ sys ++ List.replicate (0x30000 - sys.length) 0) := by
  have hl : lout.length = 0x5000 := by
    have h5 := elf_to_raw_ok_length ls _ lout h
    rwa [List.length_replicate] at h5
  have hs : sout.length = 0xB000 := by
    have h5 := elf_to_raw_ok_length ss _ sout h2
    rwa [List.length_replicate] at h5
  simp only [compose_tau_image, SUPERVISOR_OFFSET, SYSTEM_OFFSET, IMAGE_SIZE,
    loader_subbuffer, h, supervisor_subbuffer lout hl, h2]
  rw [if_neg (by omega), image2_eq lout sout hl, final_take lout sout hl hs,
    final_drop lout sout hl hs sys.length]

lemma compose_ok_spec (L S : Except ElfError (List Segment))
    (Y : Except ElfError (List Nat)) (out : List Nat)
    (h : compose_tau_image L S Y = .ok out) :
    ∃ lsegs ssegs sys lout sout,
      L = .ok lsegs ∧ S = .ok ssegs ∧ Y = .ok sys ∧
      elf_to_raw lsegs (List.replicate 0x5000 0) = .ok lout ∧
      elf_to_raw ssegs (List.replicate 0xB000 0) = .ok sout ∧
      lout.length = 0x5000 ∧ sout.length = 0xB000 ∧ sys.length ≤ 0x30000 ∧
      out = lout ++ sout ++ sys ++ List.replicate (0x30000 - sys.length) 0 := by
  cases L with
  | error e => exact Except.noConfusion (h.symm.trans (compose_loader_read_err S Y e))
  | ok lsegs =>
    cases helf : elf_to_raw lsegs (List.replicate 0x5000 0) with
    | error e =>
      exact Except.noConfusion (h.symm.trans (compose_loader_elf_err lsegs S Y e helf))
    | ok lout =>
      cases S with
      | error e =>
        exact Except.noConfusion
          (h.symm.trans (compose_supervisor_read_err lsegs lout Y e helf))
      | ok ssegs =>
        cases helf2 : elf_to_raw ssegs (List.replicate 0xB000 0) with
        | error e =>
          exact Except.noConfusion
            (h.symm.trans (compose_supervisor_elf_err lsegs ssegs lout Y e helf helf2))
        | ok sout =>
          cases Y with
          | error e =>
            exact Except.noConfusion
              (h.symm.trans (compose_system_read_err lsegs ssegs lout sout e helf helf2))
          | ok sys =>
            by_cases hn : 0x30000 < sys.length
            · exact Except.noConfusion (h.symm.trans
                (compose_system_too_big lsegs ssegs lout sout sys helf helf2 hn))
            · have heval := compose_ok_eval lsegs ssegs sys lout sout helf helf2 (by omega)
              have hout := (h.symm.trans heval)
              have hl : lout.length = 0x5000 := by
                have h5 := elf_to_raw_ok_length lsegs _ lout helf
                rwa [List.length_replicate] at h5
              have hs : sout.length = 0xB000 := by
                have h5 := elf_to_raw_ok_length ssegs _ sout helf2
                rwa [List.length_replicate] at h5
              exact ⟨lsegs, ssegs, sys, lout, sout, rfl, rfl, rfl, helf, helf2, hl, hs,
                by omega, Except.ok.inj hout⟩

lemma compose_ok_length (L S : Except ElfError (List Segment))
    (Y : Except ElfError (List Nat)) (out : List Nat)
    (h : compose_tau_image L S Y = .ok out) : out.length = 0x40000 := by
  obtain ⟨ls, ss, sys, lout, sout, _, _, _, _, _, hl, hs, hn, hout⟩ :=
    compose_ok_spec L S Y out h
  subst hout
  simp [hl, hs]
  omega

lemma crc32_round_lt (c : Nat) (h : c < 2 ^ 32) : crc32_round c < 2 ^ 32 := by
  unfold crc32_round
  split
  · exact Nat.xor_lt_two_pow (by omega) (by norm_num)
  · omega

lemma crc32_rounds_lt (n : Nat) : ∀ c, c < 2 ^ 32 → crc32_rounds n c < 2 ^ 32 := by
  induction n with
  | zero => intro c h; exact h
  | succ n ih => intro c h; exact ih (crc32_round c) (crc32_round_lt c h)

lemma crc32_update_lt (c b : Nat) (h : c < 2 ^ 32) : crc32_update c b < 2 ^ 32 :=
  crc32_rounds_lt 8 _ (Nat.xor_lt_two_pow h (by omega : b % 256 < 2 ^ 32))

lemma foldl_crc32_lt (data : List Nat) : ∀ c, c < 2 ^ 32 →
    data.foldl crc32_update c < 2 ^ 32 := by
  induction data with
  | nil => intro c h; exact h
  | cons b rest ih => intro c h; exact ih (crc32_update c b) (crc32_update_lt c b h)

lemma crc32_lt (data : List Nat) : crc32 data < 2 ^ 32 :=
  Nat.xor_lt_two_pow (foldl_crc32_lt data 0xFFFFFFFF (by norm_num)) (by norm_num)

lemma length_u32ToLeBytes (x : Nat) : (u32ToLeBytes x).length = 4 := rfl

lemma length_write_at (h : List Nat) (i x : Nat) (hb : i * 4 + 4 ≤ h.length) :
    (write_at h i x).length = h.length := by
  unfold write_at
  exact length_writeRange _ _ _ (by rw [length_u32ToLeBytes]; omega)

lemma byteAt_write_at_outside (h : List Nat) (i x j : Nat) (hb : i * 4 + 4 ≤ h.length)
    (hj : j < i * 4 ∨ i * 4 + 4 ≤ j) :
    byteAt (write_at h i x) j = byteAt h j := by
  unfold write_at
  exact byteAt_writeRange_outside h (i * 4) (u32ToLeBytes x)
    (by rw [length_u32ToLeBytes]; omega) j (by rw [length_u32ToLeBytes]; omega)

lemma byteAt_u32ToLeBytes_zero (x : Nat) : byteAt (u32ToLeBytes x) 0 = x % 256 := rfl

lemma byteAt_u32ToLeBytes_one (x : Nat) : byteAt (u32ToLeBytes x) 1 = x / 2 ^ 8 % 256 := rfl

lemma byteAt_u32ToLeBytes_two (x : Nat) : byteAt (u32ToLeBytes x) 2 = x / 2 ^ 16 % 256 := rfl

lemma byteAt_u32ToLeBytes_three (x : Nat) : byteAt (u32ToLeBytes x) 3 = x / 2 ^ 24 % 256 := rfl

lemma byteAt_write_at_inside (h : List Nat) (i x : Nat) (hb : i * 4 + 4 ≤ h.length)
    (k : Nat) (hk : k < 4) :
    byteAt (write_at h i x) (i * 4 + k) = byteAt (u32ToLeBytes x) k := by
  unfold write_at
  exact byteAt_writeRange_inside h (i * 4) (u32ToLeBytes x)
    (by rw [length_u32ToLeBytes]; omega) k (by rw [length_u32ToLeBytes]; omega)

lemma readLe32_write_at_self (h : List Nat) (i x : Nat) (hb : i * 4 + 4 ≤ h.length)
    (hx : x < 2 ^ 32) : readLe32 (write_at h i x) (i * 4) = x := by
  have h0 := byteAt_write_at_inside h i x hb 0 (by omega)
  have h1 := byteAt_write_at_inside h i x hb 1 (by omega)
  have h2 := byteAt_write_at_inside h i x hb 2 (by omega)
  have h3 := byteAt_write_at_inside h i x hb 3 (by omega)
  rw [Nat.add_zero] at h0
  unfold readLe32
  rw [h0, h1, h2, h3, byteAt_u32ToLeBytes_zero, byteAt_u32ToLeBytes_one,
    byteAt_u32ToLeBytes_two, byteAt_u32ToLeBytes_three]
  omega

lemma readLe32_write_at_other (h : List Nat) (i x o : Nat) (hb : i * 4 + 4 ≤ h.length)
    (ho : o + 4 ≤ i * 4 ∨ i * 4 + 4 ≤ o) :
    readLe32 (write_at h i x) o = readLe32 h o := by
  unfold readLe32
  rw [byteAt_write_at_outside h i x o hb (by omega),
    byteAt_write_at_outside h i x (o + 1) hb (by omega),
    byteAt_write_at_outside h i x (o + 2) hb (by omega),
    byteAt_write_at_outside h i x (o + 3) hb (by omega)]

lemma calc_spl_header_ok (spl : List Nat) (b v : Option Nat)
    (hlen : spl.length ≤ 180048) :
    calc_spl_header spl b v = .ok
      (write_at (write_at (write_at (write_at (write_at (write_at
        (List.replicate 0x400 0) 0x00 0x240) 0x01 (b.getD 0x200000))
        0xa1 (v.getD 0x01010101)) 0xa2 (spl.length % 2 ^ 32)) 0xa3 0x400)
        0xa4 (crc32 spl)) := by
  unfold calc_spl_header
  rw [if_neg (by omega)]

lemma spl_header_fields (spl : List Nat) (b v : Option Nat)
    (hlen : spl.length ≤ 180048) (hb : b.getD 0x200000 < 2 ^ 32)
    (hv : v.getD 0x01010101 < 2 ^ 32) :
    ∃ out, calc_spl_header spl b v = .ok out ∧ out.length = 0x400 ∧
      readLe32 out (0x00 * 4) = 0x240 ∧
      readLe32 out (0x01 * 4) = b.getD 0x200000 ∧
      readLe32 out (0xa1 * 4) = v.getD 0x01010101 ∧
      readLe32 out (0xa2 * 4) = spl.length ∧
      readLe32 out (0xa3 * 4) = 0x400 ∧
      readLe32 out (0xa4 * 4) = crc32 spl ∧
      (∀ j, 8 ≤ j → j < 0x284 → byteAt out j = 0) ∧
      (∀ j, 0x294 ≤ j → byteAt out j = 0) := by
  have L0 : (List.replicate 0x400 (0 : Nat)).length = 0x400 := by
    rw [List.length_replicate]
  have L1 : (write_at (List.replicate 0x400 (0 : Nat)) 0x00 0x240).length = 0x400 := by
    rw [length_write_at _ _ _ (by rw [L0]; norm_num), L0]
  have L2 : (write_at (write_at (List.replicate 0x400 (0 : Nat)) 0x00 0x240) 0x01
      (b.getD 0x200000)).length = 0x400 := by
    rw [length_write_at _ _ _ (by rw [L1]; norm_num), L1]
  have L3 : (write_at (write_at (write_at (List.replicate 0x400 (0 : Nat)) 0x00 0x240) 0x01
      (b.getD 0x200000)) 0xa1 (v.getD 0x01010101)).length = 0x400 := by
    rw [length_write_at _ _ _ (by rw [L2]; norm_num), L2]
  have L4 : (write_at (write_at (write_at (write_at (List.replicate 0x400 (0 : Nat)) 0x00
      0x240) 0x01 (b.getD 0x200000)) 0xa1 (v.getD 0x01010101)) 0xa2
      (spl.length % 2 ^ 32)).length = 0x400 := by
    rw [length_write_at _ _ _ (by rw [L3]; norm_num), L3]
  have L5 : (write_at (write_at (write_at (write_at (write_at (List.replicate 0x400 (0 : Nat))
      0x00 0x240) 0x01 (b.getD 0x200000)) 0xa1 (v.getD 0x01010101)) 0xa2
      (spl.length % 2 ^ 32)) 0xa3 0x400).length = 0x400 := by
    rw [length_write_at _ _ _ (by rw [L4]; norm_num), L4]
  refine ⟨_, calc_spl_header_ok spl b v hlen, ?_, ?_, ?_, ?_, ?_, ?_, ?_, ?_, ?_⟩
  · rw [length_write_at _ _ _ (by rw [L5]; norm_num), L5]
  · rw [readLe32_write_at_other _ _ _ _ (by rw [L5]; norm_num) (by norm_num),
      readLe32_write_at_other _ _ _ _ (by rw [L4]; norm_num) (by norm_num),
      readLe32_write_at_other _ _ _ _ (by rw [L3]; norm_num) (by norm_num),
      readLe32_write_at_other _ _ _ _ (by rw [L2]; norm_num) (by norm_num),
      readLe32_write_at_other _ _ _ _ (by rw [L1]; norm_num) (by norm_num),
      readLe32_write_at_self _ _ _ (by rw [L0]; norm_num) (by norm_num)]
  · rw [readLe32_write_at_other _ _ _ _ (by rw [L5]; norm_num) (by norm_num),
      readLe32_write_at_other _ _ _ _ (by rw [L4]; norm_num) (by norm_num),
      readLe32_write_at_other _ _ _ _ (by rw [L3]; norm_num) (by norm_num),
      readLe32_write_at_other _ _ _ _ (by rw [L2]; norm_num) (by norm_num),
      readLe32_write_at_self _ _ _ (by rw [L1]; norm_num) hb]
  · rw [readLe32_write_at_other _ _ _ _ (by rw [L5]; norm_num) (by norm_num),
      readLe32_write_at_other _ _ _ _ (by rw [L4]; norm_num) (by norm_num),
      readLe32_write_at_other _ _ _ _ (by rw [L3]; norm_num) (by norm_num),
      readLe32_write_at_self _ _ _ (by rw [L2]; norm_num) hv]
  · rw [readLe32_write_at_other _ _ _ _ (by rw [L5]; norm_num) (by norm_num),
      readLe32_write_at_other _ _ _ _ (by rw [L4]; norm_num) (by norm_num),
      readLe32_write_at_self _ _ _ (by rw [L3]; norm_num) (by omega)]
    omega
  · rw [readLe32_write_at_other _ _ _ _ (by rw [L5]; norm_num) (by norm_num),
      readLe32_write_at_self _ _ _ (by rw [L4]; norm_num) (by norm_num)]
  · rw [readLe32_write_at_self _ _ _ (by rw [L5]; norm_num) (crc32_lt spl)]
  · intro j h8 h284
    rw [byteAt_write_at_outside _ _ _ _ (by rw [L5]; norm_num) (by omega),
      byteAt_write_at_outside _ _ _ _ (by rw [L4]; norm_num) (by omega),
      byteAt_write_at_outside _ _ _ _ (by rw [L3]; norm_num) (by omega),
      byteAt_write_at_outside _ _ _ _ (by rw [L2]; norm_num) (by omega),
      byteAt_write_at_outside _ _ _ _ (by rw [L1]; norm_num) (by omega),
      byteAt_write_at_outside _ _ _ _ (by rw [L0]; norm_num) (by omega),
      byteAt_replicate, ite_self]
  · intro j h294
    rw [byteAt_write_at_outside _ _ _ _ (by rw [L5]; norm_num) (by omega),
      byteAt_write_at_outside _ _ _ _ (by rw [L4]; norm_num) (by omega),
      byteAt_write_at_outside _ _ _ _ (by rw [L3]; norm_num) (by omega),
      byteAt_write_at_outside _ _ _ _ (by rw [L2]; norm_num) (by omega),
      byteAt_write_at_outside _ _ _ _ (by rw [L1]; norm_num) (by omega),
      byteAt_write_at_outside _ _ _ _ (by rw [L0]; norm_num) (by omega),
      byteAt_replicate, ite_self]

example : crc32 [49, 50, 51, 52, 53, 54, 55, 56, 57] = 0xCBF43926 := by decide

/-- Claim C1: for every statically linked executable whose loadable segments fit
    within the zero-initialized destination buffer, `elf_to_raw` skips segments
    whose memory size is 0, places each remaining segment with non-zero
    file-backed size at destination range
    `(vaddr − min_addr) .. (vaddr − min_addr + file_size)` where `min_addr` is
    the minimum virtual address over the selected segments, copies exactly
    `file_size` bytes from the segment's file data and never more, and leaves
    every byte of the buffer outside those copied ranges zero (including the
    `(memsz − filesz)` BSS tail of each segment); the copied ranges match the
    source bytes exactly.  (Segments of an executable are assumed to occupy
    pairwise disjoint file-backed destination ranges, and virtual addresses are
    `u64` values.) -/
theorem claim_C1_segment_extraction (segs : List Segment) (image : List Nat)
    (hzero : ∀ j, byteAt image j = 0)
    (hwf : ∀ s ∈ segs, s.data.length ≤ s.memsz)
    (hv : ∀ s ∈ segs, s.vaddr < 2 ^ 64)
    (hfit : ∀ s ∈ segs, s.memsz ≠ 0 →
      s.vaddr - minAddr segs + s.memsz ≤ image.length)
    (hdisj : (selectedSegs segs).Pairwise (disjointRanges (minAddr segs))) :
    ∃ out, elf_to_raw segs image = .ok out ∧ out.length = image.length ∧
      (∀ s ∈ segs, s.memsz ≠ 0 → ∀ k, k < s.data.length →
        byteAt out (s.vaddr - minAddr segs + k) = byteAt s.data k) ∧
      (∀ j, (∀ s ∈ segs, s.memsz ≠ 0 →
          ¬(s.vaddr - minAddr segs ≤ j ∧
            j < s.vaddr - minAddr segs + s.data.length)) →
        byteAt out j = 0) ∧
      (∀ s ∈ selectedSegs segs, minAddr segs ≤ s.vaddr) ∧
      (selectedSegs segs ≠ [] → ∃ s ∈ selectedSegs segs, minAddr segs = s.vaddr) := by
  have hfit2 : ∀ s ∈ selectedSegs segs,
      s.vaddr - minAddr segs + s.data.length ≤ image.length := by
    intro s hs
    obtain ⟨hmem, hmz⟩ := (mem_selectedSegs segs s).mp hs
    have := hwf s hmem
    have := hfit s hmem hmz
    omega
  obtain ⟨out, hok, hlen, hcopy, huntouched⟩ :=
    copyLoop_spec (minAddr segs) (selectedSegs segs) image hfit2 hdisj
  refine ⟨out, hok, hlen, ?_, ?_, fun s hs => minAddr_le_selected segs s hs,
    fun hne => minAddr_is_min segs
      (fun s hs => hv s ((mem_selectedSegs segs s).mp hs).1) hne⟩
  · intro s hmem hmz k hk
    exact hcopy s ((mem_selectedSegs segs s).mpr ⟨hmem, hmz⟩) k hk
  · intro j hj
    rw [huntouched j, hzero j]
    intro s hs
    obtain ⟨hmem, hmz⟩ := (mem_selectedSegs segs s).mp hs
    exact hj s hmem hmz

/-- Witness for C1 at a concrete input: a single two-byte segment at virtual
    address 0x1000 with memory size 4, extracted into an 8-byte zero buffer. -/
theorem claim_C1_witness :
    ∃ out, elf_to_raw [⟨0x1000, [0xAA, 0xBB], 4⟩] (List.replicate 8 0) = .ok out ∧
      out.length = (List.replicate 8 (0 : Nat)).length ∧
      (∀ s ∈ [(⟨0x1000, [0xAA, 0xBB], 4⟩ : Segment)], s.memsz ≠ 0 →
        ∀ k, k < s.data.length →
        byteAt out (s.vaddr - minAddr [⟨0x1000, [0xAA, 0xBB], 4⟩] + k) =
          byteAt s.data k) ∧
      (∀ j, (∀ s ∈ [(⟨0x1000, [0xAA, 0xBB], 4⟩ : Segment)], s.memsz ≠ 0 →
          ¬(s.vaddr - minAddr [⟨0x1000, [0xAA, 0xBB], 4⟩] ≤ j ∧
            j < s.vaddr - minAddr [⟨0x1000, [0xAA, 0xBB], 4⟩] + s.data.length)) →
        byteAt out j = 0) ∧
      (∀ s ∈ selectedSegs [⟨0x1000, [0xAA, 0xBB], 4⟩],
        minAddr [⟨0x1000, [0xAA, 0xBB], 4⟩] ≤ s.vaddr) ∧
      (selectedSegs [⟨0x1000, [0xAA, 0xBB], 4⟩] ≠ [] →
        ∃ s ∈ selectedSegs [⟨0x1000, [0xAA, 0xBB], 4⟩],
          minAddr [⟨0x1000, [0xAA, 0xBB], 4⟩] = s.vaddr) :=
  claim_C1_segment_extraction [⟨0x1000, [0xAA, 0xBB], 4⟩] (List.replicate 8 0)
    (fun j => by rw [byteAt_replicate, ite_self])
    (by decide) (by decide) (by decide)
    (by decide)

/-- Claim C2: for every payload of length at most 180048 bytes and any choice
    of the optional backup-offset and version overrides (32-bit values),
    `calc_spl_header` returns a 1024-byte header whose little-endian 32-bit
    words are 0x240 at word 0x00, the backup-copy offset (default 0x200000) at
    word 0x01, the version word (default 0x01010101) at word 0xa1, the payload
    length at word 0xa2, the header length 0x400 at word 0xa3, and the
    CRC-32/ISO-HDLC checksum of the payload at word 0xa4; all other header
    bytes are zero. -/
theorem claim_C2_spl_header (spl : List Nat) (b v : Option Nat)
    (hlen : spl.length ≤ 180048) (hb : b.getD 0x200000 < 2 ^ 32)
    (hv : v.getD 0x01010101 < 2 ^ 32) :
    ∃ out, calc_spl_header spl b v = .ok out ∧ out.length = 0x400 ∧
      readLe32 out (0x00 * 4) = 0x240 ∧
      readLe32 out (0x01 * 4) = b.getD 0x200000 ∧
      readLe32 out (0xa1 * 4) = v.getD 0x01010101 ∧
      readLe32 out (0xa2 * 4) = spl.length ∧
      readLe32 out (0xa3 * 4) = 0x400 ∧
      readLe32 out (0xa4 * 4) = crc32 spl ∧
      (∀ j, 8 ≤ j → j < 0x284 → byteAt out j = 0) ∧
      (∀ j, 0x294 ≤ j → byteAt out j = 0) :=
  spl_header_fields spl b v hlen hb hv

/-- Witness for C2 at a concrete input: the three-byte payload `[1, 2, 3]` with
    both overrides left as defaults. -/
theorem claim_C2_witness :
    ∃ out, calc_spl_header [1, 2, 3] none none = .ok out ∧ out.length = 0x400 ∧
      readLe32 out (0x00 * 4) = 0x240 ∧
      readLe32 out (0x01 * 4) = (none : Option Nat).getD 0x200000 ∧
      readLe32 out (0xa1 * 4) = (none : Option Nat).getD 0x01010101 ∧
      readLe32 out (0xa2 * 4) = [1, 2, 3].length ∧
      readLe32 out (0xa3 * 4) = 0x400 ∧
      readLe32 out (0xa4 * 4) = crc32 [1, 2, 3] ∧
      (∀ j, 8 ≤ j → j < 0x284 → byteAt out j = 0) ∧
      (∀ j, 0x294 ≤ j → byteAt out j = 0) :=
  claim_C2_spl_header [1, 2, 3] none none (by decide) (by decide) (by decide)

/-- Claim C4 counterexample: a single segment at virtual address 0 with 4
    file-backed bytes and memory size 100, extracted into a 10-byte buffer.
    The buffer (10 bytes) is strictly smaller than the loadable range
    `max_addr − min_addr = 100`, yet extraction succeeds — it does not fail
    with the "output image is too small" error as the claim requires. -/
theorem claim_C4_counterexample :
    elf_to_raw [⟨0, [1, 2, 3, 4], 100⟩] (List.replicate 10 0) =
      .ok [1, 2, 3, 4, 0, 0, 0, 0, 0, 0] ∧
    elf_to_raw [⟨0, [1, 2, 3, 4], 100⟩] (List.replicate 10 0) ≠
      .error .ElfOutputTooSmall ∧
    maxAddr [⟨0, [1, 2, 3, 4], 100⟩] - minAddr [⟨0, [1, 2, 3, 4], 100⟩] = 100 ∧
    (List.replicate 10 (0 : Nat)).length = 10 := by
  refine ⟨rfl, ?_, by decide, by decide⟩
  intro h
  exact Except.noConfusion
    ((rfl : elf_to_raw [⟨0, [1, 2, 3, 4], 100⟩] (List.replicate 10 0) =
      .ok [1, 2, 3, 4, 0, 0, 0, 0, 0, 0]).symm.trans h)

/-- Claim C4 (amended): `elf_to_raw` never returns the "output image is too
    small" error (`ElfOutputTooSmall`): its guard is preceded by an equivalent
    bounds check that returns the "segment range invalid or truncated" error
    (`ElfSegment`), and the memsz-based maximum extent is computed but never
    validated.  Whenever some selected segment's computed file-backed
    destination range exceeds the buffer length, extraction fails with
    `ElfSegment`. -/
theorem claim_C4_amended (segs : List Segment) (image : List Nat) :
    elf_to_raw segs image ≠ .error .ElfOutputTooSmall ∧
    ((∃ s ∈ selectedSegs segs, s.data.length ≠ 0 ∧
        image.length < s.vaddr - minAddr segs + s.data.length) →
      elf_to_raw segs image = .error .ElfSegment) :=
  ⟨copyLoop_ne_too_small (minAddr segs) (selectedSegs segs) image,
    fun h => copyLoop_err_of_overflow (minAddr segs) (selectedSegs segs) image h⟩

/-- Witness for the amended C4: a two-segment input whose second segment's
    range `0x10 .. 0x12` exceeds the 4-byte buffer. -/
theorem claim_C4_witness :
    elf_to_raw [⟨0, [], 1⟩, ⟨0x10, [7, 8], 2⟩] (List.replicate 4 0) ≠
      .error .ElfOutputTooSmall ∧
    elf_to_raw [⟨0, [], 1⟩, ⟨0x10, [7, 8], 2⟩] (List.replicate 4 0) =
      .error .ElfSegment :=
  ⟨(claim_C4_amended [⟨0, [], 1⟩, ⟨0x10, [7, 8], 2⟩] (List.replicate 4 0)).1,
    (claim_C4_amended [⟨0, [], 1⟩, ⟨0x10, [7, 8], 2⟩] (List.replicate 4 0)).2
      (by decide)⟩

/-- Claim C5: `elf_to_raw` never writes outside the destination buffer: if any
    selected segment's computed destination range exceeds the buffer length,
    extraction deterministically returns a capacity error (`ElfSegment`)
    before copying that segment, and any successful extraction returns a
    buffer of exactly the original length (every write stays in bounds). -/
theorem claim_C5_no_out_of_bounds (segs : List Segment) (image : List Nat) :
    ((∃ s ∈ selectedSegs segs, s.data.length ≠ 0 ∧
        image.length < s.vaddr - minAddr segs + s.data.length) →
      elf_to_raw segs image = .error .ElfSegment) ∧
    (∀ out, elf_to_raw segs image = .ok out → out.length = image.length) :=
  ⟨fun h => copyLoop_err_of_overflow (minAddr segs) (selectedSegs segs) image h,
    fun out h => copyLoop_ok_length (minAddr segs) (selectedSegs segs) image out h⟩

/-- Witness for C5: a single segment with 3 file-backed bytes against a 2-byte
    buffer fails with the capacity error. -/
theorem claim_C5_witness :
    elf_to_raw [⟨0, [1, 2, 3], 3⟩] (List.replicate 2 0) = .error .ElfSegment ∧
    (∀ out, elf_to_raw [⟨0, [1, 2, 3], 3⟩] (List.replicate 2 0) = .ok out →
      out.length = (List.replicate 2 (0 : Nat)).length) :=
  ⟨(claim_C5_no_out_of_bounds [⟨0, [1, 2, 3], 3⟩] (List.replicate 2 0)).1 (by decide),
    (claim_C5_no_out_of_bounds [⟨0, [1, 2, 3], 3⟩] (List.replicate 2 0)).2⟩

/-- Claim C6: every payload strictly longer than 180048 bytes is rejected by
    `calc_spl_header` with the "payload too large" validation error, and no
    header is produced. -/
theorem claim_C6_payload_too_large (spl : List Nat) (b v : Option Nat)
    (h : 180048 < spl.length) :
    calc_spl_header spl b v = .error "spl too big" := by
  unfold calc_spl_header
  rw [if_pos (by omega)]

/-- Witness for C6 at a concrete input: a 180049-byte payload. -/
theorem claim_C6_witness :
    calc_spl_header (List.replicate 180049 0) none none = .error "spl too big" :=
  claim_C6_payload_too_large (List.replicate 180049 0) none none
    (by rw [List.length_replicate]; norm_num)

lemma byteAt_append_left (a b : List Nat) (j : Nat) (h : j < a.length) :
    byteAt (a ++ b) j = byteAt a j := by
  rw [byteAt_append, if_pos h]

lemma stub_loader_elf :
    elf_to_raw [⟨0x1000, List.replicate 16 0xAA, 16⟩] (List.replicate 0x5000 0) =
      .ok (writeRange (List.replicate 0x5000 0) 0 (List.replicate 16 0xAA)) := by
  have hsel : selectedSegs [⟨0x1000, List.replicate 16 0xAA, 16⟩] =
      [⟨0x1000, List.replicate 16 0xAA, 16⟩] := rfl
  have hmin : minAddr [⟨0x1000, List.replicate 16 0xAA, 16⟩] = 0x1000 := by
    unfold minAddr
    rw [hsel]
    show min u64Max 0x1000 = 0x1000
    rw [min_eq_right]
    unfold u64Max
    norm_num
  unfold elf_to_raw
  rw [hsel, hmin]
  simp only [copyLoop, List.length_replicate]
  rw [if_neg (by norm_num), if_neg (by norm_num), if_neg (by norm_num)]

lemma stub_loader_len :
    (writeRange (List.replicate 0x5000 (0 : Nat)) 0 (List.replicate 16 0xAA)).length =
      0x5000 := by
  rw [length_writeRange _ _ _ (by rw [List.length_replicate, List.length_replicate]; norm_num),
    List.length_replicate]

/-- Claim C3: whenever `compose_tau_image` succeeds, the returned image is
    exactly 0x40000 bytes: the loader's flat image (its extraction into a
    zeroed 0x5000-byte buffer) occupies `[0x0, 0x5000)`, the supervisor's flat
    image (its extraction into a zeroed 0xB000-byte buffer) occupies
    `[0x5000, 0x10000)`, the system file's raw bytes are copied verbatim from
    offset 0x10000, and every byte after them is zero.  Concretely, a 16-byte
    loader stub of bytes 0xAA at virtual address 0x1000 yields a composite
    image whose bytes `[0, 16)` are 0xAA and whose bytes `[16, 0x5000)` are
    zero. -/
theorem claim_C3_compose_layout :
    (∀ L S Y out, compose_tau_image L S Y = .ok out →
      out.length = 0x40000 ∧
      ∃ lsegs ssegs sys lout sout,
        L = .ok lsegs ∧ S = .ok ssegs ∧ Y = .ok sys ∧
        elf_to_raw lsegs (List.replicate 0x5000 0) = .ok lout ∧
        elf_to_raw ssegs (List.replicate 0xB000 0) = .ok sout ∧
        lout.length = 0x5000 ∧ sout.length = 0xB000 ∧ sys.length ≤ 0x30000 ∧
        out = lout ++ sout ++ sys ++ List.replicate (0x30000 - sys.length) 0) ∧
    (∃ out, compose_tau_image (.ok [⟨0x1000, List.replicate 16 0xAA, 16⟩])
        (.ok []) (.ok []) = .ok out ∧
      (∀ j, j < 16 → byteAt out j = 0xAA) ∧
      (∀ j, 16 ≤ j → j < 0x5000 → byteAt out j = 0)) := by
  constructor
  · intro L S Y out h
    exact ⟨compose_ok_length L S Y out h, compose_ok_spec L S Y out h⟩
  · have heval := compose_ok_eval [⟨0x1000, List.replicate 16 0xAA, 16⟩] [] []
      (writeRange (List.replicate 0x5000 0) 0 (List.replicate 16 0xAA))
      (List.replicate 0xB000 0) stub_loader_elf rfl (by decide)
    refine ⟨_, heval, ?_, ?_⟩
    · intro j hj
      rw [List.append_nil,
        byteAt_append_left _ _ j
          (by rw [List.length_append, stub_loader_len, List.length_replicate]; omega),
        byteAt_append_left _ _ j (by rw [stub_loader_len]; omega)]
      have hin := byteAt_writeRange_inside (List.replicate 0x5000 0) 0
        (List.replicate 16 0xAA)
        (by rw [List.length_replicate, List.length_replicate]; norm_num) j
        (by rw [List.length_replicate]; omega)
      rw [Nat.zero_add] at hin
      rw [hin, byteAt_replicate, if_pos hj]
    · intro j h16 hj
      rw [List.append_nil,
        byteAt_append_left _ _ j
          (by rw [List.length_append, stub_loader_len, List.length_replicate]; omega),
        byteAt_append_left _ _ j (by rw [stub_loader_len]; omega),
        byteAt_writeRange_outside (List.replicate 0x5000 0) 0 (List.replicate 16 0xAA)
          (by rw [List.length_replicate, List.length_replicate]; norm_num) j
          (Or.inr (by rw [List.length_replicate]; omega)),
        byteAt_replicate, ite_self]

/-- Witness for C3's universally quantified part, instantiated at the same
    concrete stub: successful composition of the 16-byte loader stub with an
    empty supervisor and an empty system file. -/
theorem claim_C3_witness :
    ∃ out, compose_tau_image (.ok [⟨0x1000, List.replicate 16 0xAA, 16⟩])
        (.ok []) (.ok [])  = .ok out ∧
      out.length = 0x40000 ∧
      (∀ j, j < 16 → byteAt out j = 0xAA) := by
  obtain ⟨hall, hstub⟩ := claim_C3_compose_layout
  obtain ⟨out, hok, haa, _⟩ := hstub
  exact ⟨out, hok, (hall _ _ _ out hok).1, haa⟩

lemma elf_bad_loader :
    elf_to_raw [⟨0, [], 1⟩, ⟨0x5000, [7], 1⟩] (List.replicate 0x5000 0) =
      .error .ElfSegment := by
  apply copyLoop_err_of_overflow
  refine ⟨⟨0x5000, [7], 1⟩, by decide, by decide, ?_⟩
  rw [List.length_replicate]
  have hmin : minAddr [⟨0, [], 1⟩, ⟨0x5000, [7], 1⟩] = 0 := by decide
  rw [hmin]
  norm_num

lemma elf_bad_supervisor :
    elf_to_raw [⟨0, [], 1⟩, ⟨0xB000, [7], 1⟩] (List.replicate 0xB000 0) =
      .error .ElfSegment := by
  apply copyLoop_err_of_overflow
  refine ⟨⟨0xB000, [7], 1⟩, by decide, by decide, ?_⟩
  rw [List.length_replicate]
  have hmin : minAddr [⟨0, [], 1⟩, ⟨0xB000, [7], 1⟩] = 0 := by decide
  rw [hmin]
  norm_num

/-- Claim C7: each failing step of `compose_tau_image` — loader or supervisor
    unreadable/unparsable or failing segment extraction into its sub-range,
    system file unreadable or longer than the 0x30000 bytes available from
    offset 0x10000 — aborts composition with an error annotated with the
    originating file path, and no image is returned. -/
theorem claim_C7_compose_errors :
    (∀ S Y e, compose_tau_image (.error e) S Y = .error ⟨loaderPath, e⟩) ∧
    (∀ ls S Y e, elf_to_raw ls (List.replicate 0x5000 0) = .error e →
      compose_tau_image (.ok ls) S Y = .error ⟨loaderPath, e⟩) ∧
    (∀ ls lout Y e, elf_to_raw ls (List.replicate 0x5000 0) = .ok lout →
      compose_tau_image (.ok ls) (.error e) Y = .error ⟨supervisorPath, e⟩) ∧
    (∀ ls ss lout Y e, elf_to_raw ls (List.replicate 0x5000 0) = .ok lout →
      elf_to_raw ss (List.replicate 0xB000 0) = .error e →
      compose_tau_image (.ok ls) (.ok ss) Y = .error ⟨supervisorPath, e⟩) ∧
    (∀ ls ss lout sout e, elf_to_raw ls (List.replicate 0x5000 0) = .ok lout →
      elf_to_raw ss (List.replicate 0xB000 0) = .ok sout →
      compose_tau_image (.ok ls) (.ok ss) (.error e) = .error ⟨systemPath, e⟩) ∧
    (∀ ls ss lout sout sys, elf_to_raw ls (List.replicate 0x5000 0) = .ok lout →
      elf_to_raw ss (List.replicate 0xB000 0) = .ok sout → 0x30000 < sys.length →
      compose_tau_image (.ok ls) (.ok ss) (.ok sys) = .error ⟨systemPath, .Read⟩) ∧
    (∀ L S Y e, compose_tau_image L S Y = .error e →
      ∀ out, compose_tau_image L S Y ≠ .ok out) :=
  ⟨fun S Y e => compose_loader_read_err S Y e,
    fun ls S Y e h => compose_loader_elf_err ls S Y e h,
    fun ls lout Y e h => compose_supervisor_read_err ls lout Y e h,
    fun ls ss lout Y e h h2 => compose_supervisor_elf_err ls ss lout Y e h h2,
    fun ls ss lout sout e h h2 => compose_system_read_err ls ss lout sout e h h2,
    fun ls ss lout sout sys h h2 hn => compose_system_too_big ls ss lout sout sys h h2 hn,
    fun _ _ _ _ herr _ hok => Except.noConfusion (herr.symm.trans hok)⟩

/-- Witness for C7: all six failure shapes at concrete inputs — a loader read
    error, a loader whose second segment overflows the 0x5000-byte sub-range,
    a supervisor read error, a supervisor whose second segment overflows the
    0xB000-byte sub-range, a system read error, and a 0x30001-byte system
    file. -/
theorem claim_C7_witness :
    compose_tau_image (.error .Read) (.ok []) (.ok []) =
      .error ⟨loaderPath, .Read⟩ ∧
    compose_tau_image (.ok [⟨0, [], 1⟩, ⟨0x5000, [7], 1⟩]) (.ok []) (.ok []) =
      .error ⟨loaderPath, .ElfSegment⟩ ∧
    compose_tau_image (.ok []) (.error .ElfParse) (.ok []) =
      .error ⟨supervisorPath, .ElfParse⟩ ∧
    compose_tau_image (.ok []) (.ok [⟨0, [], 1⟩, ⟨0xB000, [7], 1⟩]) (.ok []) =
      .error ⟨supervisorPath, .ElfSegment⟩ ∧
    compose_tau_image (.ok []) (.ok []) (.error .Read) =
      .error ⟨systemPath, .Read⟩ ∧
    compose_tau_image (.ok []) (.ok []) (.ok (List.replicate 0x30001 0)) =
      .error ⟨systemPath, .Read⟩ :=
  ⟨claim_C7_compose_errors.1 (.ok []) (.ok []) .Read,
    claim_C7_compose_errors.2.1 _ (.ok []) (.ok []) .ElfSegment elf_bad_loader,
    claim_C7_compose_errors.2.2.1 [] (List.replicate 0x5000 0) (.ok []) .ElfParse rfl,
    claim_C7_compose_errors.2.2.2.1 [] _ (List.replicate 0x5000 0) (.ok [])
      .ElfSegment rfl elf_bad_supervisor,
    claim_C7_compose_errors.2.2.2.2.1 [] [] (List.replicate 0x5000 0)
      (List.replicate 0xB000 0) .Read rfl rfl,
    claim_C7_compose_errors.2.2.2.2.2.1 [] [] (List.replicate 0x5000 0)
      (List.replicate 0xB000 0) (List.replicate 0x30001 0) rfl rfl
      (by rw [List.length_replicate]; norm_num)⟩

/-- Claim C8: the full-provisioning operation, on a device with 512-byte
    logical blocks, creates partition 1 at block 4096 with size 4096 and
    partition 2 at block 8192 with size 8192, each with its fixed type GUID;
    then writes the 1024-byte SPL header at absolute offset 0x200000
    immediately followed by the SPL payload, then the separately built
    firmware payload at absolute offset 0x400000, and flushes before
    success. -/
theorem claim_C8_format_trace (spl openSbi : List Nat) (hlen : spl.length ≤ 180048) :
    ∃ header, calc_spl_header spl none none = .ok header ∧ header.length = 0x400 ∧
      format spl openSbi = .ok
        [.createGpt 512,
         .addPartitionAt "starfive_visionfive_2_u-boot-spl" 1 4096 4096
           "2E54B353-1271-4842-806F-E436D6AF6985",
         .addPartitionAt "starfive_visionfive_2_u-boot" 2 8192 8192
           "5B193300-FC78-40CD-8002-E86C45580B47",
         .writeGpt,
         .protectiveMbr 0xFFFFFFFF,
         .seek 0x200000, .write header, .write spl,
         .seek 0x400000, .write openSbi,
         .syncAll] := by
  obtain ⟨hdr, hok, hl, _⟩ := spl_header_fields spl none none hlen (by norm_num) (by norm_num)
  refine ⟨hdr, hok, hl, ?_⟩
  unfold format
  rw [hok]

/-- Witness for C8 at a concrete input: a one-byte SPL payload and a one-byte
    firmware payload. -/
theorem claim_C8_witness :
    ∃ header, calc_spl_header [5] none none = .ok header ∧ header.length = 0x400 ∧
      format [5] [6] = .ok
        [.createGpt 512,
         .addPartitionAt "starfive_visionfive_2_u-boot-spl" 1 4096 4096
           "2E54B353-1271-4842-806F-E436D6AF6985",
         .addPartitionAt "starfive_visionfive_2_u-boot" 2 8192 8192
           "5B193300-FC78-40CD-8002-E86C45580B47",
         .writeGpt,
         .protectiveMbr 0xFFFFFFFF,
         .seek 0x200000, .write header, .write [5],
         .seek 0x400000, .write [6],
         .syncAll] :=
  claim_C8_format_trace [5] [6] (by decide)

/-- Claim C9: the incremental update is idempotent: if composing the image
    succeeds, updating a (sufficiently large) device writes the composite
    image at absolute offset 0x200000, and running the same update again on
    the resulting device contents leaves them byte-identical. -/
theorem claim_C9_update_idempotent (L S : Except ElfError (List Segment))
    (Y : Except ElfError (List Nat)) (dev img : List Nat)
    (h : compose_tau_image L S Y = .ok img)
    (hlen : 0x200000 + 0x40000 ≤ dev.length) :
    ∃ d1, update L S Y dev = .ok d1 ∧ update L S Y d1 = .ok d1 ∧
      (d1.drop 0x200000).take 0x40000 = img ∧ d1.length = dev.length := by
  have hil : img.length = 0x40000 := compose_ok_length L S Y img h
  have hb : 0x200000 + img.length ≤ dev.length := by omega
  refine ⟨writeRange dev 0x200000 img, ?_, ?_, ?_,
    length_writeRange dev 0x200000 img hb⟩
  · simp only [update, h]
  · simp only [update, h]
    rw [writeRange_idem dev 0x200000 img hb]
  · have hex := extract_writeRange dev 0x200000 img (by omega)
    rw [hil] at hex
    exact hex

/-- Witness for C9 at a concrete input: empty loader and supervisor segment
    lists, an empty system file, and an all-zero 0x240000-byte device. -/
theorem claim_C9_witness :
    ∃ d1, update (.ok []) (.ok []) (.ok []) (List.replicate 0x240000 0) = .ok d1 ∧
      update (.ok []) (.ok []) (.ok []) d1 = .ok d1 ∧
      (d1.drop 0x200000).take 0x40000 =
        List.replicate 0x5000 0 ++ List.replicate 0xB000 0 ++ [] ++
          List.replicate (0x30000 - List.length ([] : List Nat)) 0 ∧
      d1.length = (List.replicate 0x240000 (0 : Nat)).length :=
  claim_C9_update_idempotent (.ok []) (.ok []) (.ok [])
    (List.replicate 0x240000 0) _
    (compose_ok_eval [] [] [] (List.replicate 0x5000 0) (List.replicate 0xB000 0)
      rfl rfl (Nat.zero_le 0x30000))
    (by rw [List.length_replicate])

/-- Claim C10 counterexample: when an operation fails, `main` prints the single
    diagnostic line but the process still terminates with exit code 0 — the
    same exit status as a successful run — so it does not indicate
    unsuccessful completion to its invoker. -/
theorem claim_C10_counterexample :
    mainRun (.error "sudo: permission denied") = (["sudo: permission denied"], 0) ∧
    (mainRun (.error "sudo: permission denied")).2 = (mainRun (.ok ())).2 :=
  ⟨rfl, rfl⟩

/-- Claim C10 (amended): whenever an operation fails, the process reports the
    failure as exactly one diagnostic line and does not panic, but it then
    returns from `main` normally, so it terminates with exit status 0 exactly
    as if the operation had succeeded. -/
theorem claim_C10_amended (e : String) :
    mainRun (.error e) = ([e], 0) ∧ (mainRun (.ok ())).2 = 0 :=
  ⟨rfl, rfl⟩

example : elf_to_raw [⟨0x1000, [1, 2], 2⟩] (List.replicate 4 0) = .ok [1, 2, 0, 0] := rfl

example : elf_to_raw [⟨0x1000, [1, 2, 3, 4, 5], 5⟩] (List.replicate 4 0) =
    .error .ElfSegment := rfl

end TauBuilder
